import Mathlib

/-!
Verification of the tool scripts of the `smolagents` demo repository.

The repository consists of short Python scripts whose tool functions build a
URL, issue one HTTP GET, parse the JSON response, format a human-readable
string, and handle exceptions with a fallback message.  We embed those
functions shallowly:

* the HTTP layer (`requests.get` + `raise_for_status` + `.json()`) is an
  explicit parameter of type `HttpOutcome`: either the request/decode raised
  (`raise`, modelling `requests.RequestException`) or it produced a JSON value;
* JSON values are the inductive `Json`; Python dictionary access, `in` tests,
  `.get`, `len`, truthiness and `str()` are modelled by total Lean functions
  returning `Except PyExn _`, with `PyExn` distinguishing
  `requests.RequestException` from other exceptions (KeyError, TypeError,
  AttributeError, IndexError), because the two repositories' scripts catch
  different exception classes;
* environment variables (`os.getenv`) are a parameter `EnvMap`;
* the global generator behind `random.choice` is modelled as a stream of
  pre-drawn indices (`RandS`) that is threaded through the functions that
  consult it;
* Python's `eval` builtin is an oracle parameter `PyEval` giving, for each
  expression string, either the `str()` of its value or the `str()` of the
  exception it raises;
* observable effects (HTTP GETs, `print` calls, `eval` invocations) are
  returned as an explicit `List Effect` trace.
-/

/-- Python exceptions, distinguishing `requests.RequestException` (constructor
`req`) from the other exception classes raised by the scripts' JSON handling,
since `local_multiple_tools.py` catches only `requests.RequestException` while
`demo_tools.py` catches `Exception`. -/
inductive PyExn where
  | req (m : String)
  | key (k : String)
  | type (m : String)
  | attr (m : String)
  | idx (m : String)
deriving DecidableEq

instance {ε α : Type} [DecidableEq ε] [DecidableEq α] : DecidableEq (Except ε α) := fun a b =>
  match a, b with
  | .ok x, .ok y =>
    if h : x = y then .isTrue (by rw [h]) else .isFalse (by intro hc; cases hc; exact h rfl)
  | .error x, .error y =>
    if h : x = y then .isTrue (by rw [h]) else .isFalse (by intro hc; cases hc; exact h rfl)
  | .ok _, .error _ => .isFalse (by intro hc; cases hc)
  | .error _, .ok _ => .isFalse (by intro hc; cases hc)

/-- JSON values as returned by `response.json()`.  Numbers are idealised as
rationals (the scripts' claims do not depend on IEEE-754 rounding). -/
inductive Json where
  | null
  | bool (b : Bool)
  | num (q : ℚ)
  | str (s : String)
  | arr (elems : List Json)
  | obj (fields : List (String × Json))

/-- Outcome of `requests.get(url)` followed by `raise_for_status()` and
`.json()`: either some step raised a `requests.RequestException` (connection
error, timeout, HTTP error status, JSON decode error), or a JSON body. -/
inductive HttpOutcome where
  | raise (m : String)
  | ok (data : Json)

/-- Observable effects of one tool invocation. -/
inductive Effect where
  | httpGet (url : String)
  | printLine (line : String)
  | evalCall (e : String)
deriving DecidableEq

/-- Result of Python's `eval` on an expression: the `str()` of the resulting
value, or the `str()` of the raised exception. -/
inductive EvalResult where
  | ok (r : String)
  | exn (m : String)

/-- Oracle modelling Python's `eval` builtin (external to the repository). -/
abbrev PyEval := String → EvalResult

/-- `os.getenv`: the process environment. -/
abbrev EnvMap := String → Option String

/-- The global `random` generator, modelled as the stream of indices the next
`random.choice` calls will draw. -/
abbrev RandS := List Nat

/-- Consume one draw from the global random generator. -/
def draw : RandS → Nat × RandS
  | [] => (0, [])
  | k :: rest => (k, rest)

/-- `random.choice(l)` given a drawn index. -/
def choiceStr (l : List String) (k : Nat) : String :=
  l.getD (k % l.length) ""

/-- Python's substring test `t in l` on character lists. -/
def containsSub (t : List Char) : List Char → Bool
  | [] => t.isEmpty
  | c :: l' => t.isPrefixOf (c :: l') || containsSub t (l')

/-- Exact rational multiplication, written via `mkRat` so that concrete
instances evaluate;  models Python's `float` multiplication (idealised as
exact arithmetic, since no claim depends on IEEE-754 rounding). -/
def qMul (a b : ℚ) : ℚ := mkRat (a.num * b.num) (a.den * b.den)

/-- The rational `n / 1`. -/
def qNat (n : Nat) : ℚ := mkRat n 1

/-- Decimal digits of a natural number (`Nat.repr`). -/
def natStr (n : Nat) : String := Nat.repr n

/-- Decimal rendering of an integer. -/
def intStr (n : ℤ) : String :=
  (if n < 0 then "-" else "") ++ natStr n.natAbs

/-- Rendering of a rational, used to model Python's `str()` on numbers
(idealised: the scripts' claims do not depend on float repr digits). -/
def numStr (q : ℚ) : String :=
  intStr q.num ++ (if q.den = 1 then "" else "/" ++ natStr q.den)

/-- Round a rational to the nearest integer (`⌊q + 1/2⌋`, computed on the
numerator and denominator), as Python's float formatting rounds (ties
idealised; no claim exercises a tie). -/
def roundQ (q : ℚ) : ℤ := Int.fdiv (2 * q.num + (q.den : ℤ)) (2 * (q.den : ℤ))

/-- Left-pad the decimal digits of `n` with zeros to width `p`. -/
def natPad (p : Nat) (n : Nat) : String :=
  let s := natStr n
  String.mk (List.replicate (p - s.length) '0') ++ s

/-- Python's fixed-point format specifier, `format(q, '.pf')`. -/
def fmtFixed (p : Nat) (q : ℚ) : String :=
  let n : ℤ := roundQ (qMul q (qNat (10 ^ p)))
  (if n < 0 then "-" else "") ++ natStr (n.natAbs / 10 ^ p) ++ "." ++ natPad p (n.natAbs % 10 ^ p)

/-- Python's `str()` on a JSON-derived value.  Container rendering is
abbreviated: no claim observes the printed form of a list or dict. -/
def pyStr : Json → String
  | .null => "None"
  | .bool true => "True"
  | .bool false => "False"
  | .num q => numStr q
  | .str s => s
  | .arr _ => "[...]"
  | .obj _ => "\x7b...\x7d"

/-- Python's `str()` of an exception object, as interpolated into fallback
messages (no claim pins these renderings). -/
def pyExnStr : PyExn → String
  | .req m => m
  | .key k => "\x27" ++ k ++ "\x27"
  | .type m => m
  | .attr m => m
  | .idx m => m

/-- Python's `x == "s"` for a JSON-derived `x` and a string literal. -/
def pyEqStr (j : Json) (s : String) : Bool :=
  match j with
  | .str t => t == s
  | _ => false

/-- Python's membership test `k in data` for a string `k`:  key test on dicts,
substring test on strings, element test on lists, `TypeError` otherwise. -/
def pyContains (j : Json) (k : String) : Except PyExn Bool :=
  match j with
  | .obj l => .ok ((l.find? (fun p => p.1 == k)).isSome)
  | .str s => .ok (containsSub k.data s.data)
  | .arr l => .ok (l.any (fun e => pyEqStr e k))
  | _ => .error (.type "argument is not iterable")

/-- Python's `data[k]` for a string key: dict lookup raising `KeyError`,
`TypeError` on non-dicts. -/
def pyGetItem (j : Json) (k : String) : Except PyExn Json :=
  match j with
  | .obj l =>
    match l.find? (fun p => p.1 == k) with
    | some p => .ok p.2
    | none => .error (.key k)
  | .str _ => .error (.type "string indices must be integers")
  | .arr _ => .error (.type "list indices must be integers")
  | _ => .error (.type "object is not subscriptable")

/-- Python's `data[i]` for a numeric index. -/
def pyGetIdx (j : Json) (i : Nat) : Except PyExn Json :=
  match j with
  | .arr l =>
    match l.get? i with
    | some e => .ok e
    | none => .error (.idx "list index out of range")
  | .str s =>
    match s.data.get? i with
    | some c => .ok (.str (String.mk [c]))
    | none => .error (.idx "string index out of range")
  | .obj _ => .error (.key (natStr i))
  | _ => .error (.type "object is not subscriptable")

/-- Python's `data.get(k, d)`: total on dicts, `AttributeError` otherwise. -/
def pyGetD (j : Json) (k : String) (d : Json) : Except PyExn Json :=
  match j with
  | .obj l =>
    .ok (match l.find? (fun p => p.1 == k) with
         | some p => p.2
         | none => d)
  | _ => .error (.attr "object has no attribute \x27get\x27")

/-- Python truthiness of a JSON-derived value. -/
def pyTruthy : Json → Bool
  | .null => false
  | .bool b => b
  | .num q => !(q.num == 0)
  | .str s => !(s == "")
  | .arr l => !l.isEmpty
  | .obj l => !l.isEmpty

/-- Python's `len()`. -/
def pyLen : Json → Except PyExn Nat
  | .str s => .ok s.length
  | .arr l => .ok l.length
  | .obj l => .ok l.length
  | _ => .error (.type "object has no len")

/-- `float * x` for a JSON-derived `x`: numbers multiply, booleans coerce to
0/1 (Python's `bool` is an `int`), anything else raises `TypeError`. -/
def pyToNum : Json → Except PyExn ℚ
  | .num q => .ok q
  | .bool b => .ok (if b then qNat 1 else qNat 0)
  | _ => .error (.type "unsupported operand type")

/-- `except Exception as e: return fmt(e)` — `demo_tools.py` catches every
exception, so the wrapped body never propagates. -/
def catchAll (b : Except PyExn String) (fmt : PyExn → String) : Except PyExn String :=
  match b with
  | .ok s => .ok s
  | .error e => .ok (fmt e)

/-- `except requests.RequestException as e: return fmt(e)` —
`local_multiple_tools.py` catches only request exceptions; any other
exception keeps propagating. -/
def catchReq (b : Except PyExn String) (fmt : String → String) : Except PyExn String :=
  match b with
  | .error (.req m) => .ok (fmt m)
  | x => x

/-- Whether an `Except`-valued call returned normally. -/
def okE (x : Except PyExn String) : Bool :=
  match x with
  | .ok _ => true
  | .error _ => false

/-- `query.replace(' ', '_')`. -/
def replaceSpaces (s : String) : String :=
  String.mk (s.data.map (fun c => if c == ' ' then '_' else c))

/-- The allow-list `'0123456789+-*/.() '` of `calculate`. -/
def allowed_chars : List Char := "0123456789+-*/.() ".data

/-- `all(c in allowed_chars for c in expression)`. -/
def allowedOk (e : String) : Bool := e.data.all (fun c => allowed_chars.contains c)

/-- The `dangerous_terms` list of `demo_tools.calculate`. -/
def dangerous_terms : List String := ["__", "import", "exec", "eval", "open", "file"]

/-- `expression.lower()` as a character list. -/
def lowerData (e : String) : List Char := e.data.map Char.toLower

/-- `any(term in expression.lower() for term in dangerous_terms)`. -/
def dangerousHit (e : String) : Bool :=
  dangerous_terms.any (fun t => containsSub t.data (lowerData e))

namespace DemoTools

/-- The configuration error of `demo_tools.get_weather`. -/
def keyMissingMsg : String :=
  "❌ Weather API key not configured. Please add WEATHERSTACK_API_KEY to your .env file."

/-- `demo_tools.convert_currency`. -/
def convert_currency (amount : ℚ) (from_currency to_currency : String)
    (http : HttpOutcome) : Except PyExn String × List Effect :=
  let url := "https://api.exchangerate-api.com/v4/latest/" ++ from_currency
  let body : Except PyExn String :=
    match http with
    | .raise m => .error (.req m)
    | .ok data => do
        let cond ← do
          let hr ← pyContains data "rates"
          if hr then do
            let rts ← pyGetItem data "rates"
            pyContains rts to_currency
          else
            pure false
        if cond then do
          let rts ← pyGetItem data "rates"
          let rate ← pyGetItem rts to_currency
          let rq ← pyToNum rate
          pure ("💰 " ++ numStr amount ++ " " ++ from_currency ++ " = " ++
            fmtFixed 2 (qMul amount rq) ++ " " ++ to_currency ++ " (Rate: " ++ fmtFixed 4 rq ++ ")")
        else
          pure ("❌ Could not find exchange rate for " ++ from_currency ++ " to " ++ to_currency)
  (catchAll body (fun e => "❌ Error fetching exchange rate: " ++ pyExnStr e), [.httpGet url])

/-- `demo_tools.get_weather`. -/
def get_weather (location : String) (celsius : Bool) (env : EnvMap)
    (http : HttpOutcome) : Except PyExn String × List Effect :=
  match env "WEATHERSTACK_API_KEY" with
  | none => (.ok keyMissingMsg, [])
  | some api_key =>
    if api_key == "" then (.ok keyMissingMsg, [])
    else
      let units := if celsius then "m" else "f"
      let url := "http://api.weatherstack.com/current?access_key=" ++ api_key ++
        "&query=" ++ location ++ "&units=" ++ units
      let body : Except PyExn String :=
        match http with
        | .raise m => .error (.req m)
        | .ok data => do
            let he ← pyContains data "error"
            if he then do
              let err ← pyGetItem data "error"
              let info ← pyGetItem err "info"
              pure ("❌ Weather API error: " ++ pyStr info)
            else do
              let current ← pyGetItem data "current"
              let location_info ← pyGetItem data "location"
              let temp_unit := if celsius then "°C" else "°F"
              let nm ← pyGetItem location_info "name"
              let ct ← pyGetItem location_info "country"
              let wd ← pyGetItem current "weather_descriptions"
              let wd0 ← pyGetIdx wd 0
              let tp ← pyGetItem current "temperature"
              let fl ← pyGetItem current "feelslike"
              let hm ← pyGetItem current "humidity"
              let ws ← pyGetItem current "wind_speed"
              pure ("🌤️ Weather in " ++ pyStr nm ++ ", " ++ pyStr ct ++ ":\n   " ++
                pyStr wd0 ++ "\n   Temperature: " ++ pyStr tp ++ temp_unit ++
                " (feels like " ++ pyStr fl ++ temp_unit ++ ")\n   Humidity: " ++
                pyStr hm ++ "%, Wind: " ++ pyStr ws ++ " km/h")
      (catchAll body (fun e => "❌ Error fetching weather: " ++ pyExnStr e), [.httpGet url])

/-- The three hardcoded fallback jokes of `demo_tools.get_joke`. -/
def fallback_jokes : List String :=
  ["Why do programmers prefer dark mode? Because light attracts bugs!",
   "How many programmers does it take to change a light bulb? None, that\x27s a hardware problem!",
   "Why do Java developers wear glasses? Because they don\x27t C#!"]

/-- The URL requested by `demo_tools.get_joke`. -/
def jokeUrl : String := "https://v2.jokeapi.dev/joke/Programming?safe-mode&type=single"

/-- The `try` block of `demo_tools.get_joke`. -/
def get_joke_body (http : HttpOutcome) : Except PyExn String :=
  match http with
  | .raise m => .error (.req m)
  | .ok data => do
      let err ← pyGetD data "error" .null
      if pyTruthy err then
        pure "😅 Sorry, couldn\x27t fetch a joke right now."
      else do
        let ty ← pyGetItem data "type"
        if pyEqStr ty "single" then do
          let j ← pyGetItem data "joke"
          pure ("😄 " ++ pyStr j)
        else do
          let s ← pyGetItem data "setup"
          let d ← pyGetItem data "delivery"
          pure ("😄 " ++ pyStr s ++ "\n   " ++ pyStr d)

/-- `demo_tools.get_joke`.  The random generator is consumed only when the
body raises (the fallback path calls `random.choice`). -/
def get_joke (http : HttpOutcome) (rs : RandS) :
    Except PyExn String × RandS × List Effect :=
  match get_joke_body http with
  | .ok s => (.ok s, rs, [.httpGet jokeUrl])
  | .error _ =>
    (.ok ("😄 " ++ choiceStr fallback_jokes (draw rs).1), (draw rs).2, [.httpGet jokeUrl])

/-- The five hardcoded fallback facts of `demo_tools.get_random_fact`. -/
def fallback_facts : List String :=
  ["The first computer bug was an actual bug - a moth trapped in a Harvard Mark II computer in 1947.",
   "Python was named after the British comedy group Monty Python, not the snake.",
   "The term \x27debugging\x27 was popularized by Admiral Grace Hopper in the 1940s.",
   "The first programmer was Ada Lovelace, who wrote the first algorithm for Charles Babbage\x27s Analytical Engine in 1843.",
   "The \x27@\x27 symbol was used in email addresses for the first time by Ray Tomlinson in 1971."]

/-- The URL requested by `demo_tools.get_random_fact`. -/
def factUrl : String := "https://uselessfacts.jsph.pl/random.json?language=en"

/-- The `try` block of `demo_tools.get_random_fact`: `some` text on the
success path, `none` when control falls through because the response lacks
`"text"`. -/
def get_random_fact_body (http : HttpOutcome) : Except PyExn (Option String) :=
  match http with
  | .raise m => .error (.req m)
  | .ok data => do
      let ht ← pyContains data "text"
      if ht then do
        let t ← pyGetItem data "text"
        pure (some ("🧠 Random Fact: " ++ pyStr t))
      else
        pure none

/-- `demo_tools.get_random_fact`.  An exception prints a diagnostic line
(`print(f"Primary fact API failed: ...")`) before the local fallback; the
fall-through path goes to the local fallback without printing. -/
def get_random_fact (http : HttpOutcome) (rs : RandS) :
    Except PyExn String × RandS × List Effect :=
  match get_random_fact_body http with
  | .ok (some s) => (.ok s, rs, [.httpGet factUrl])
  | .ok none =>
    (.ok ("🧠 Random Fact: " ++ choiceStr fallback_facts (draw rs).1), (draw rs).2, [.httpGet factUrl])
  | .error e =>
    (.ok ("🧠 Random Fact: " ++ choiceStr fallback_facts (draw rs).1), (draw rs).2,
      [.httpGet factUrl, .printLine ("Primary fact API failed: " ++ pyExnStr e)])

/-- `demo_tools.search_wikipedia`. -/
def search_wikipedia (query : String) (http : HttpOutcome) :
    Except PyExn String × List Effect :=
  let url := "https://en.wikipedia.org/api/rest_v1/page/summary/" ++ replaceSpaces query
  let body : Except PyExn String :=
    match http with
    | .raise m => .error (.req m)
    | .ok data => do
        let cond ← do
          let he ← pyContains data "extract"
          if he then do
            let ex ← pyGetItem data "extract"
            pure (pyTruthy ex)
          else
            pure false
        if cond then do
          let title ← pyGetD data "title" (.str query)
          let extract ← pyGetItem data "extract"
          let cu ← pyGetD data "content_urls" (.obj [])
          let desk ← pyGetD cu "desktop" (.obj [])
          let page ← pyGetD desk "page" (.str "")
          pure ("📖 Wikipedia - " ++ pyStr title ++ ":\n" ++ pyStr extract ++
            "\n\n🔗 Read more: " ++ pyStr page)
        else
          pure ("❌ No Wikipedia summary found for \x27" ++ query ++ "\x27.")
  (catchAll body (fun e => "❌ Error searching Wikipedia: " ++ pyExnStr e), [.httpGet url])

/-- `demo_tools.calculate`: allow-list check, dangerous-terms check, `eval`. -/
def calculate (expression : String) (ev : PyEval) : Except PyExn String × List Effect :=
  if !(allowedOk expression) then
    (.ok "❌ Invalid characters in expression. Only numbers and basic math operators are allowed.", [])
  else if dangerousHit expression then
    (.ok "❌ Invalid expression detected.", [])
  else
    match ev expression with
    | .ok r => (.ok ("🧮 " ++ expression ++ " = " ++ r), [.evalCall expression])
    | .exn m => (.ok ("❌ Error calculating \x27" ++ expression ++ "\x27: " ++ m), [.evalCall expression])

end DemoTools

namespace LocalTools

/-- The configuration error of `local_multiple_tools.get_weather`. -/
def keyMissingMsg : String :=
  "Weather API key not configured. Please add WEATHERSTACK_API_KEY to your .env file."

/-- `local_multiple_tools.get_weather`:  same request as the demo-tools
variant, but the `except` clause catches only `requests.RequestException`. -/
def get_weather (location : String) (celsius : Bool) (env : EnvMap)
    (http : HttpOutcome) : Except PyExn String × List Effect :=
  match env "WEATHERSTACK_API_KEY" with
  | none => (.ok keyMissingMsg, [])
  | some api_key =>
    if api_key == "" then (.ok keyMissingMsg, [])
    else
      let units := if celsius then "m" else "f"
      let url := "http://api.weatherstack.com/current?access_key=" ++ api_key ++
        "&query=" ++ location ++ "&units=" ++ units
      let body : Except PyExn String :=
        match http with
        | .raise m => .error (.req m)
        | .ok data => do
            let he ← pyContains data "error"
            if he then do
              let err ← pyGetItem data "error"
              let info ← pyGetItem err "info"
              pure ("Error fetching weather data: " ++ pyStr info)
            else do
              let current ← pyGetItem data "current"
              let location_info ← pyGetItem data "location"
              let temp_unit := if celsius then "°C" else "°F"
              let nm ← pyGetItem location_info "name"
              let ct ← pyGetItem location_info "country"
              let wd ← pyGetItem current "weather_descriptions"
              let wd0 ← pyGetIdx wd 0
              let tp ← pyGetItem current "temperature"
              let fl ← pyGetItem current "feelslike"
              let hm ← pyGetItem current "humidity"
              pure ("Weather in " ++ pyStr nm ++ ", " ++ pyStr ct ++ ": " ++ pyStr wd0 ++
                ", Temperature: " ++ pyStr tp ++ temp_unit ++ ", Feels like: " ++
                pyStr fl ++ temp_unit ++ ", Humidity: " ++ pyStr hm ++ "%")
      (catchReq body (fun m => "Error fetching weather data: " ++ m), [.httpGet url])

/-- `local_multiple_tools.convert_currency`: a paid-tier branch when
`EXCHANGE_API_KEY` is set (truthy) and the same free-tier branch as
`demo_tools.convert_currency` otherwise; catches only request exceptions. -/
def convert_currency (amount : ℚ) (from_currency to_currency : String) (env : EnvMap)
    (http : HttpOutcome) : Except PyExn String × List Effect :=
  let hasKey : Bool :=
    match env "EXCHANGE_API_KEY" with
    | none => false
    | some s => !(s == "")
  let url :=
    match env "EXCHANGE_API_KEY" with
    | some s =>
      if s == "" then "https://api.exchangerate-api.com/v4/latest/" ++ from_currency
      else "https://v6.exchangerate-api.com/v6/" ++ s ++ "/pair/" ++ from_currency ++ "/" ++ to_currency
    | none => "https://api.exchangerate-api.com/v4/latest/" ++ from_currency
  let body : Except PyExn String :=
    match http with
    | .raise m => .error (.req m)
    | .ok data =>
      if hasKey then do
        let cond ← do
          let hr ← pyContains data "result"
          if hr then do
            let r ← pyGetItem data "result"
            pure (pyEqStr r "success")
          else
            pure false
        if cond then do
          let rate ← pyGetItem data "conversion_rate"
          let rq ← pyToNum rate
          pure (numStr amount ++ " " ++ from_currency ++ " = " ++
            fmtFixed 2 (qMul amount rq) ++ " " ++ to_currency ++ " (Rate: " ++ pyStr rate ++ ")")
        else do
          let et ← pyGetD data "error-type" (.str "Unknown error")
          pure ("Error: " ++ pyStr et)
      else do
        let cond ← do
          let hr ← pyContains data "rates"
          if hr then do
            let rts ← pyGetItem data "rates"
            pyContains rts to_currency
          else
            pure false
        if cond then do
          let rts ← pyGetItem data "rates"
          let rate ← pyGetItem rts to_currency
          let rq ← pyToNum rate
          pure (numStr amount ++ " " ++ from_currency ++ " = " ++
            fmtFixed 2 (qMul amount rq) ++ " " ++ to_currency ++ " (Rate: " ++ pyStr rate ++ ")")
        else
          pure ("Error: Could not find exchange rate for " ++ from_currency ++ " to " ++ to_currency)
  (catchReq body (fun m => "Error fetching exchange rate: " ++ m), [.httpGet url])

/-- The URL requested by `local_multiple_tools.get_joke`. -/
def jokeUrl : String := "https://v2.jokeapi.dev/joke/Any?safe-mode&type=single"

/-- `local_multiple_tools.get_joke`: note `data["error"]` (a `KeyError` when
the key is missing) and an `except` clause that catches only request
exceptions. -/
def get_joke (http : HttpOutcome) : Except PyExn String × List Effect :=
  let body : Except PyExn String :=
    match http with
    | .raise m => .error (.req m)
    | .ok data => do
        let err ← pyGetItem data "error"
        if pyTruthy err then
          pure "Sorry, couldn\x27t fetch a joke right now."
        else do
          let ty ← pyGetItem data "type"
          if pyEqStr ty "single" then do
            let j ← pyGetItem data "joke"
            pure (pyStr j)
          else do
            let s ← pyGetItem data "setup"
            let d ← pyGetItem data "delivery"
            pure (pyStr s ++ " - " ++ pyStr d)
  (catchReq body (fun m => "Error fetching joke: " ++ m), [.httpGet jokeUrl])

/-- The URL requested by `local_multiple_tools.get_random_fact`. -/
def factUrl : String := "https://api.api-ninjas.com/v1/facts"

/-- `local_multiple_tools.get_random_fact`: one GET (the `API_NINJAS_KEY`
environment variable only adds a header), then `data[0]["fact"]`. -/
def get_random_fact (env : EnvMap) (http : HttpOutcome) : Except PyExn String × List Effect :=
  let body : Except PyExn String :=
    match http with
    | .raise m => .error (.req m)
    | .ok data =>
      if pyTruthy data then do
        let n ← pyLen data
        if 0 < n then do
          let d0 ← pyGetIdx data 0
          let f ← pyGetItem d0 "fact"
          pure (pyStr f)
        else
          pure "Sorry, couldn\x27t fetch a random fact right now."
      else
        pure "Sorry, couldn\x27t fetch a random fact right now."
  (catchReq body (fun m => "Error fetching random fact: " ++ m), [.httpGet factUrl])

/-- `local_multiple_tools.search_wikipedia`: the query is interpolated into
the URL unreplaced, and the success condition is just `"extract" in data`. -/
def search_wikipedia (query : String) (http : HttpOutcome) : Except PyExn String × List Effect :=
  let url := "https://en.wikipedia.org/api/rest_v1/page/summary/" ++ query
  let body : Except PyExn String :=
    match http with
    | .raise m => .error (.req m)
    | .ok data => do
        let he ← pyContains data "extract"
        if he then do
          let ex ← pyGetItem data "extract"
          pure ("Wikipedia summary for \x27" ++ query ++ "\x27: " ++ pyStr ex)
        else
          pure ("No Wikipedia summary found for \x27" ++ query ++ "\x27.")
  (catchReq body (fun m => "Error searching Wikipedia: " ++ m), [.httpGet url])

/-- `local_multiple_tools.calculate`: allow-list check then `eval`, inside a
`try`/`except Exception` (so it never propagates). -/
def calculate (expression : String) (ev : PyEval) : Except PyExn String × List Effect :=
  if !(allowedOk expression) then
    (.ok "Error: Invalid characters in expression. Only numbers and basic math operators are allowed.", [])
  else
    match ev expression with
    | .ok r => (.ok (expression ++ " = " ++ r), [.evalCall expression])
    | .exn m => (.ok ("Error calculating \x27" ++ expression ++ "\x27: " ++ m), [.evalCall expression])

end LocalTools

namespace MyAgentDemo

/-- `my_agent_demo.calculate`: `eval(expression, \x7b"__builtins__": \x7b\x7d\x7d, \x7b\x7d)`
with no character check; catches every exception. -/
def calculate (expression : String) (ev : PyEval) : String × List Effect :=
  match ev expression with
  | .ok r => ("The result of " ++ expression ++ " is " ++ r, [.evalCall expression])
  | .exn m => ("Error calculating " ++ expression ++ ": " ++ m, [.evalCall expression])

end MyAgentDemo

namespace MyGradioDemo

/-- `my_gradio_demo.calculate`: restricted `eval` with no character check. -/
def calculate (expression : String) (ev : PyEval) : String × List Effect :=
  match ev expression with
  | .ok r => ("Result: " ++ r, [.evalCall expression])
  | .exn m => ("Error: " ++ m, [.evalCall expression])

end MyGradioDemo

namespace SimpleDemo

/-- `simple_demo.simple_calculator`: restricted `eval` with no character
check. -/
def simple_calculator (expression : String) (ev : PyEval) : String × List Effect :=
  match ev expression with
  | .ok r => ("Result: " ++ r, [.evalCall expression])
  | .exn m => ("Error: " ++ m, [.evalCall expression])

end SimpleDemo

/-- Whether an effect is an HTTP GET. -/
def isGet : Effect → Bool
  | .httpGet _ => true
  | _ => false

/-- Whether an effect is externally observable (an in-process `eval` call is
not). -/
def isExternal : Effect → Bool
  | .httpGet _ => true
  | .printLine _ => true
  | .evalCall _ => false

/-- Number of HTTP GETs in an effect trace. -/
def gets (t : List Effect) : Nat := (t.filter isGet).length

/-- Lookup in a JSON object's field list (first binding wins, as in the
`find?`-based dictionary model above). -/
def jlookup (l : List (String × Json)) (k : String) : Option Json :=
  (l.find? (fun p => p.1 == k)).map (fun p => p.2)

/-- Models Python's `eval` builtin at the concrete inputs used in the
examples below: `eval("1_0")` is the numeric literal 10 (PEP 515 underscore
separator), `eval("2+2")` is 4, `eval("1+1")` is 2; other inputs are taken to
raise (the choice is irrelevant to the statements that use this oracle). -/
def pyEvalSample : PyEval := fun e =>
  if e == "1_0" then .ok "10"
  else if e == "2+2" then .ok "4"
  else if e == "1+1" then .ok "2"
  else .exn ("invalid syntax (" ++ e ++ ")")

/-- Monadic bind on `Except` reduces on a normal return. -/
@[simp] theorem exn_bind_ok {α β : Type} (a : α) (f : α → Except PyExn β) :
    ((Except.ok a : Except PyExn α) >>= f) = f a := rfl

/-- Monadic bind on `Except` reduces on an exception. -/
@[simp] theorem exn_bind_error {α β : Type} (e : PyExn) (f : α → Except PyExn β) :
    ((Except.error e : Except PyExn α) >>= f) = Except.error e := rfl

/-- `pure` on `Except` is a normal return. -/
@[simp] theorem exn_pure {α : Type} (a : α) : (pure a : Except PyExn α) = Except.ok a := rfl

/-- The catch-everything wrapper of the demo tools always returns normally. -/
theorem okE_catchAll (b : Except PyExn String) (fmt : PyExn → String) :
    okE (catchAll b fmt) = true := by
  cases b <;> rfl

/-- `random.choice` picks an element of a nonempty list. -/
theorem choiceStr_mem (l : List String) (hl : l ≠ []) (k : Nat) : choiceStr l k ∈ l := by
  have hlen : 0 < l.length := List.length_pos.mpr hl
  have hk : k % l.length < l.length := Nat.mod_lt _ hlen
  unfold choiceStr
  rw [List.getD_eq_getElem l _ hk]
  exact List.getElem_mem hk

/-- A substring's characters all occur in the ambient string. -/
theorem containsSub_sub (t : List Char) (l : List Char) (h : containsSub t l = true) :
    ∀ c ∈ t, c ∈ l := by
  induction l with
  | nil =>
    intro c hc
    simp only [containsSub, List.isEmpty_iff] at h
    subst h
    cases hc
  | cons x l' ih =>
    intro c hc
    simp only [containsSub, Bool.or_eq_true] at h
    rcases h with h | h
    · exact (List.isPrefixOf_iff_prefix.mp h).subset hc
    · exact List.mem_cons_of_mem _ (ih h c hc)

/-- Every character of the lowercased expression is still in the allow-list:
the allowed characters are digits, operators and space, all fixed by
`str.lower`. -/
theorem lower_allowed (e : String) (h : allowedOk e = true) :
    ∀ c ∈ lowerData e, c ∈ allowed_chars := by
  intro c hc
  unfold lowerData at hc
  rw [List.mem_map] at hc
  obtain ⟨c0, hc0, rfl⟩ := hc
  unfold allowedOk at h
  rw [List.all_eq_true] at h
  have h0 : c0 ∈ allowed_chars := by
    have := h c0 hc0
    simpa using this
  have hfix : ∀ a ∈ allowed_chars, a.toLower = a := by decide
  rw [hfix c0 h0]
  exact h0

/-- Every dangerous term contains a character (an underscore or a lowercase
letter) outside the allow-list, so an allow-listed expression can never
contain one. -/
theorem allowed_no_dangerous (e : String) (h : allowedOk e = true) :
    dangerousHit e = false := by
  cases hDH : dangerousHit e with
  | false => rfl
  | true =>
    exfalso
    unfold dangerousHit at hDH
    rw [List.any_eq_true] at hDH
    obtain ⟨t, ht, hc⟩ := hDH
    have hsub := containsSub_sub _ _ hc
    have hlow := lower_allowed e h
    fin_cases ht
    · exact (by decide : ¬ '_' ∈ allowed_chars) (hlow _ (hsub '_' (by decide)))
    · exact (by decide : ¬ 'i' ∈ allowed_chars) (hlow _ (hsub 'i' (by decide)))
    · exact (by decide : ¬ 'x' ∈ allowed_chars) (hlow _ (hsub 'x' (by decide)))
    · exact (by decide : ¬ 'v' ∈ allowed_chars) (hlow _ (hsub 'v' (by decide)))
    · exact (by decide : ¬ 'o' ∈ allowed_chars) (hlow _ (hsub 'o' (by decide)))
    · exact (by decide : ¬ 'f' ∈ allowed_chars) (hlow _ (hsub 'f' (by decide)))

/-- Counterexample to C2 as stated: `simple_demo.simple_calculator` performs
no character check — on `"1_0"` (the underscore is outside the allow-list,
but is a valid Python numeric-literal separator) it invokes `eval` and
returns the computed result instead of an invalid-characters error. -/
theorem claim_C2_counterexample :
    SimpleDemo.simple_calculator "1_0" pyEvalSample = ("Result: 10", [.evalCall "1_0"]) ∧
    allowedOk "1_0" = false := by
  constructor
  · rfl
  · decide

/-- Claim C2 (amended): the evaluator variants in `demo_tools.py` and
`local_multiple_tools.py` behave as a single allow-listed character check
followed by a direct `eval` call — an expression with a character outside
`'0123456789+-*/.() '` gets the invalid-characters message with no `eval`
call, and an allow-listed expression is evaluated directly; the variants in
`my_agent_demo.py`, `my_gradio_demo.py` and `simple_demo.py` perform no
character check and evaluate every expression. -/
theorem claim_C2 (ev : PyEval) (e : String) :
    (allowedOk e = false →
      DemoTools.calculate e ev =
        (.ok "❌ Invalid characters in expression. Only numbers and basic math operators are allowed.", []) ∧
      LocalTools.calculate e ev =
        (.ok "Error: Invalid characters in expression. Only numbers and basic math operators are allowed.", [])) ∧
    (allowedOk e = true →
      (DemoTools.calculate e ev).2 = [.evalCall e] ∧
      (LocalTools.calculate e ev).2 = [.evalCall e] ∧
      ∀ r, ev e = .ok r →
        (DemoTools.calculate e ev).1 = .ok ("🧮 " ++ e ++ " = " ++ r) ∧
        (LocalTools.calculate e ev).1 = .ok (e ++ " = " ++ r)) ∧
    ((SimpleDemo.simple_calculator e ev).2 = [.evalCall e] ∧
      (MyAgentDemo.calculate e ev).2 = [.evalCall e] ∧
      (MyGradioDemo.calculate e ev).2 = [.evalCall e]) := by
  refine ⟨?_, ?_, ?_⟩
  · intro hA
    constructor <;> simp [DemoTools.calculate, LocalTools.calculate, hA]
  · intro hA
    have hD := allowed_no_dangerous e hA
    refine ⟨?_, ?_, ?_⟩
    · cases hev : ev e <;> simp [DemoTools.calculate, hA, hD, hev]
    · cases hev : ev e <;> simp [LocalTools.calculate, hA, hev]
    · intro r hev
      constructor <;> simp [DemoTools.calculate, LocalTools.calculate, hA, hD, hev]
  · refine ⟨?_, ?_, ?_⟩ <;>
      cases hev : ev e <;>
        simp [SimpleDemo.simple_calculator, MyAgentDemo.calculate, MyGradioDemo.calculate, hev]

/-- Witness for C2 at a concrete allow-listed expression. -/
theorem claim_C2_witness :
    allowedOk "2+2" = true ∧ (DemoTools.calculate "2+2" pyEvalSample).2 = [.evalCall "2+2"] :=
  ⟨by decide, ((claim_C2 pyEvalSample "2+2").2.1 (by decide)).1⟩

/-- Claim C4: the three restricted-`eval` variants (`my_agent_demo.py`,
`my_gradio_demo.py`, `simple_demo.py` — all calling
`eval(expression, dict with empty builtins, empty locals)`) succeed on
exactly the same expressions with the same result, differing only in
wording; and the two allow-listed variants (`demo_tools.py`,
`local_multiple_tools.py`) accept and reject exactly the same expressions
and compute the same result value on accepted ones. -/
theorem claim_C4 (evR ev : PyEval) (e : String) :
    ((∃ r, evR e = .ok r ∧
        MyAgentDemo.calculate e evR = ("The result of " ++ e ++ " is " ++ r, [.evalCall e]) ∧
        MyGradioDemo.calculate e evR = ("Result: " ++ r, [.evalCall e]) ∧
        SimpleDemo.simple_calculator e evR = ("Result: " ++ r, [.evalCall e])) ∨
      (∃ m, evR e = .exn m ∧
        MyAgentDemo.calculate e evR = ("Error calculating " ++ e ++ ": " ++ m, [.evalCall e]) ∧
        MyGradioDemo.calculate e evR = ("Error: " ++ m, [.evalCall e]) ∧
        SimpleDemo.simple_calculator e evR = ("Error: " ++ m, [.evalCall e]))) ∧
    (allowedOk e = false →
      (DemoTools.calculate e ev).1 =
        .ok "❌ Invalid characters in expression. Only numbers and basic math operators are allowed." ∧
      (LocalTools.calculate e ev).1 =
        .ok "Error: Invalid characters in expression. Only numbers and basic math operators are allowed.") ∧
    (allowedOk e = true →
      ((∃ r, ev e = .ok r ∧
          (DemoTools.calculate e ev).1 = .ok ("🧮 " ++ e ++ " = " ++ r) ∧
          (LocalTools.calculate e ev).1 = .ok (e ++ " = " ++ r)) ∨
        (∃ m, ev e = .exn m ∧
          (DemoTools.calculate e ev).1 = .ok ("❌ Error calculating \x27" ++ e ++ "\x27: " ++ m) ∧
          (LocalTools.calculate e ev).1 = .ok ("Error calculating \x27" ++ e ++ "\x27: " ++ m)))) := by
  refine ⟨?_, ?_, ?_⟩
  · cases hev : evR e with
    | ok r =>
      exact Or.inl ⟨r, rfl, by simp [MyAgentDemo.calculate, hev],
        by simp [MyGradioDemo.calculate, hev], by simp [SimpleDemo.simple_calculator, hev]⟩
    | exn m =>
      exact Or.inr ⟨m, rfl, by simp [MyAgentDemo.calculate, hev],
        by simp [MyGradioDemo.calculate, hev], by simp [SimpleDemo.simple_calculator, hev]⟩
  · intro hA
    constructor <;> simp [DemoTools.calculate, LocalTools.calculate, hA]
  · intro hA
    have hD := allowed_no_dangerous e hA
    cases hev : ev e with
    | ok r =>
      exact Or.inl ⟨r, rfl, by simp [DemoTools.calculate, hA, hD, hev],
        by simp [LocalTools.calculate, hA, hev]⟩
    | exn m =>
      exact Or.inr ⟨m, rfl, by simp [DemoTools.calculate, hA, hD, hev],
        by simp [LocalTools.calculate, hA, hev]⟩

/-- Witness for C4 at a concrete allow-listed expression. -/
theorem claim_C4_witness :
    allowedOk "1+1" = true ∧
    ((∃ r, pyEvalSample "1+1" = .ok r ∧
        (DemoTools.calculate "1+1" pyEvalSample).1 = .ok ("🧮 " ++ "1+1" ++ " = " ++ r) ∧
        (LocalTools.calculate "1+1" pyEvalSample).1 = .ok ("1+1" ++ " = " ++ r)) ∨
      (∃ m, pyEvalSample "1+1" = .exn m ∧
        (DemoTools.calculate "1+1" pyEvalSample).1 =
          .ok ("❌ Error calculating \x27" ++ "1+1" ++ "\x27: " ++ m) ∧
        (LocalTools.calculate "1+1" pyEvalSample).1 =
          .ok ("Error calculating \x27" ++ "1+1" ++ "\x27: " ++ m))) :=
  ⟨by decide, (claim_C4 pyEvalSample pyEvalSample "1+1").2.2 (by decide)⟩

/-- Claim C10: on the free-tier response, when `data["rates"]` holds a
numeric rate `r` for the target currency, `convert_currency` (both files)
reports the converted amount `amount * r` formatted to two decimal places
together with the rate; when the rates object has no entry for the target
currency (or the response has no `"rates"` field), it returns the
could-not-find-rate message. -/
theorem claim_C10 (amount : ℚ) (from_currency to_currency : String)
    (l rts : List (String × Json)) (r : ℚ) (env : EnvMap)
    (henv : env "EXCHANGE_API_KEY" = none) :
    (l.find? (fun p => p.1 == "rates") = some ("rates", .obj rts) →
      (rts.find? (fun p => p.1 == to_currency) = some (to_currency, .num r) →
        (DemoTools.convert_currency amount from_currency to_currency (.ok (.obj l))).1 =
          .ok ("💰 " ++ numStr amount ++ " " ++ from_currency ++ " = " ++
            fmtFixed 2 (qMul amount r) ++ " " ++ to_currency ++ " (Rate: " ++ fmtFixed 4 r ++ ")") ∧
        (LocalTools.convert_currency amount from_currency to_currency env (.ok (.obj l))).1 =
          .ok (numStr amount ++ " " ++ from_currency ++ " = " ++
            fmtFixed 2 (qMul amount r) ++ " " ++ to_currency ++ " (Rate: " ++ numStr r ++ ")")) ∧
      (rts.find? (fun p => p.1 == to_currency) = none →
        (DemoTools.convert_currency amount from_currency to_currency (.ok (.obj l))).1 =
          .ok ("❌ Could not find exchange rate for " ++ from_currency ++ " to " ++ to_currency) ∧
        (LocalTools.convert_currency amount from_currency to_currency env (.ok (.obj l))).1 =
          .ok ("Error: Could not find exchange rate for " ++ from_currency ++ " to " ++ to_currency))) ∧
    (l.find? (fun p => p.1 == "rates") = none →
      (DemoTools.convert_currency amount from_currency to_currency (.ok (.obj l))).1 =
        .ok ("❌ Could not find exchange rate for " ++ from_currency ++ " to " ++ to_currency) ∧
      (LocalTools.convert_currency amount from_currency to_currency env (.ok (.obj l))).1 =
        .ok ("Error: Could not find exchange rate for " ++ from_currency ++ " to " ++ to_currency)) := by
  refine ⟨?_, ?_⟩
  · intro hf
    have h1 : pyContains (Json.obj l) "rates" = .ok true := by simp [pyContains, hf]
    have h2 : pyGetItem (Json.obj l) "rates" = .ok (.obj rts) := by simp [pyGetItem, hf]
    refine ⟨?_, ?_⟩
    · intro hg
      have h3 : pyContains (Json.obj rts) to_currency = .ok true := by simp [pyContains, hg]
      have h4 : pyGetItem (Json.obj rts) to_currency = .ok (.num r) := by simp [pyGetItem, hg]
      constructor
      · simp [DemoTools.convert_currency, h1, h2, h3, h4, pyToNum, catchAll]
      · simp [LocalTools.convert_currency, henv, h1, h2, h3, h4, pyToNum, catchReq, pyStr]
    · intro hg
      have h3 : pyContains (Json.obj rts) to_currency = .ok false := by simp [pyContains, hg]
      constructor
      · simp [DemoTools.convert_currency, h1, h2, h3, catchAll]
      · simp [LocalTools.convert_currency, henv, h1, h2, h3, catchReq]
  · intro hf
    have h1 : pyContains (Json.obj l) "rates" = .ok false := by simp [pyContains, hf]
    constructor
    · simp [DemoTools.convert_currency, h1, catchAll]
    · simp [LocalTools.convert_currency, henv, h1, catchReq]

/-- Witness for C10: converting 2 USD at rate 0.85 reports 1.70. -/
theorem claim_C10_witness :
    ([("rates", Json.obj [("EUR", Json.num (mkRat 17 20))])].find?
        (fun p => p.1 == "rates") = some ("rates", Json.obj [("EUR", Json.num (mkRat 17 20))])) ∧
    (DemoTools.convert_currency (qNat 2) "USD" "EUR"
        (.ok (.obj [("rates", Json.obj [("EUR", Json.num (mkRat 17 20))])]))).1 =
      .ok "💰 2 USD = 1.70 EUR (Rate: 0.8500)" ∧
    (LocalTools.convert_currency (qNat 2) "USD" "EUR" (fun _ => none)
        (.ok (.obj [("rates", Json.obj [("EUR", Json.num (mkRat 17 20))])]))).1 =
      .ok "2 USD = 1.70 EUR (Rate: 17/20)" := by
  have h := ((claim_C10 (qNat 2) "USD" "EUR"
      [("rates", Json.obj [("EUR", Json.num (mkRat 17 20))])]
      [("EUR", Json.num (mkRat 17 20))] (mkRat 17 20) (fun _ => none) rfl).1 rfl).1 rfl
  refine ⟨rfl, ?_, ?_⟩
  · rw [h.1]
    decide
  · rw [h.2]
    decide

/-- Claim C9: when `WEATHERSTACK_API_KEY` is unset, `get_weather` in both
`demo_tools.py` and `local_multiple_tools.py` returns the API-key-not-
configured message immediately, with an empty effect trace (no HTTP request),
for every location and celsius flag. -/
theorem claim_C9 (location : String) (celsius : Bool) (env : EnvMap) (http : HttpOutcome)
    (h : env "WEATHERSTACK_API_KEY" = none) :
    DemoTools.get_weather location celsius env http = (.ok DemoTools.keyMissingMsg, []) ∧
    LocalTools.get_weather location celsius env http = (.ok LocalTools.keyMissingMsg, []) := by
  constructor
  · unfold DemoTools.get_weather
    rw [h]
  · unfold LocalTools.get_weather
    rw [h]

/-- Witness for C9 at a concrete empty environment. -/
theorem claim_C9_witness :
    ((fun _ => none : EnvMap) "WEATHERSTACK_API_KEY" = none) ∧
    DemoTools.get_weather "London" false (fun _ => none) (.raise "x") =
      (.ok DemoTools.keyMissingMsg, []) :=
  ⟨rfl, (claim_C9 "London" false (fun _ => none) (.raise "x") rfl).1⟩

/-- Claim C3: on the exception path (the HTTP request raises),
`demo_tools.get_joke` returns `"😄 "` followed by one of the three fixed
fallback jokes, and `demo_tools.get_random_fact` returns `"🧠 Random Fact: "`
followed by one of the five fixed fallback facts — also when the response is
an object lacking a `"text"` field. -/
theorem claim_C3 (m : String) (rs : RandS) (l : List (String × Json)) :
    (DemoTools.get_joke (.raise m) rs).1 =
      .ok ("😄 " ++ choiceStr DemoTools.fallback_jokes (draw rs).1) ∧
    choiceStr DemoTools.fallback_jokes (draw rs).1 ∈ DemoTools.fallback_jokes ∧
    (DemoTools.get_random_fact (.raise m) rs).1 =
      .ok ("🧠 Random Fact: " ++ choiceStr DemoTools.fallback_facts (draw rs).1) ∧
    (l.find? (fun p => p.1 == "text") = none →
      (DemoTools.get_random_fact (.ok (.obj l)) rs).1 =
        .ok ("🧠 Random Fact: " ++ choiceStr DemoTools.fallback_facts (draw rs).1)) ∧
    choiceStr DemoTools.fallback_facts (draw rs).1 ∈ DemoTools.fallback_facts := by
  refine ⟨rfl, choiceStr_mem _ (by decide) _, rfl, ?_, choiceStr_mem _ (by decide) _⟩
  intro hfind
  have h2 : pyContains (Json.obj l) "text" = .ok false := by
    simp [pyContains, hfind]
  have hbody : DemoTools.get_random_fact_body (.ok (.obj l)) = .ok none := by
    simp [DemoTools.get_random_fact_body, h2]
  unfold DemoTools.get_random_fact
  rw [hbody]

/-- Witness for C3 at the empty-object response. -/
theorem claim_C3_witness :
    (([] : List (String × Json)).find? (fun p => p.1 == "text") = none) ∧
    (DemoTools.get_random_fact (.ok (.obj [])) [2]).1 =
      .ok ("🧠 Random Fact: " ++ choiceStr DemoTools.fallback_facts (draw [2]).1) :=
  ⟨rfl, ((claim_C3 "x" [2] []).2.2.2.1 rfl)⟩

/-- Claim C8: in `demo_tools.calculate`, an expression passing the
allow-listed character check never contains a dangerous term (each term has a
character outside the allow-list), so the `"❌ Invalid expression detected."`
branch is unreachable, and every input yields the invalid-characters message,
the evaluated result, or the calculation-error message. -/
theorem claim_C8 (e : String) (ev : PyEval) :
    (allowedOk e = true → dangerousHit e = false) ∧
    ((DemoTools.calculate e ev).1 =
        .ok "❌ Invalid characters in expression. Only numbers and basic math operators are allowed." ∨
      (∃ r, ev e = .ok r ∧ (DemoTools.calculate e ev).1 = .ok ("🧮 " ++ e ++ " = " ++ r)) ∨
      (∃ m, ev e = .exn m ∧
        (DemoTools.calculate e ev).1 = .ok ("❌ Error calculating \x27" ++ e ++ "\x27: " ++ m))) := by
  refine ⟨allowed_no_dangerous e, ?_⟩
  by_cases hA : allowedOk e = true
  · have hD := allowed_no_dangerous e hA
    cases hev : ev e with
    | ok r =>
      right; left
      exact ⟨r, rfl, by simp [DemoTools.calculate, hA, hD, hev]⟩
    | exn m =>
      right; right
      exact ⟨m, rfl, by simp [DemoTools.calculate, hA, hD, hev]⟩
  · left
    have hA' : allowedOk e = false := by
      revert hA
      cases allowedOk e <;> simp
    simp [DemoTools.calculate, hA']

/-- Witness for C8 at a concrete allow-listed expression. -/
theorem claim_C8_witness :
    allowedOk "1+1" = true ∧ dangerousHit "1+1" = false :=
  ⟨by decide, (claim_C8 "1+1" pyEvalSample).1 (by decide)⟩

/-- Claim C6: every network-backed tool invocation performs at most one HTTP
GET, on success and failure paths alike, and `demo_tools.get_random_fact`
performs exactly one GET before falling back to its local table when the
request raises. -/
theorem claim_C6 :
    (∀ (a : ℚ) (f t : String) (h : HttpOutcome),
      gets (DemoTools.convert_currency a f t h).2 ≤ 1) ∧
    (∀ (loc : String) (c : Bool) (env : EnvMap) (h : HttpOutcome),
      gets (DemoTools.get_weather loc c env h).2 ≤ 1) ∧
    (∀ (h : HttpOutcome) (rs : RandS), gets (DemoTools.get_joke h rs).2.2 ≤ 1) ∧
    (∀ (h : HttpOutcome) (rs : RandS), gets (DemoTools.get_random_fact h rs).2.2 ≤ 1) ∧
    (∀ (q : String) (h : HttpOutcome), gets (DemoTools.search_wikipedia q h).2 ≤ 1) ∧
    (∀ (loc : String) (c : Bool) (env : EnvMap) (h : HttpOutcome),
      gets (LocalTools.get_weather loc c env h).2 ≤ 1) ∧
    (∀ (a : ℚ) (f t : String) (env : EnvMap) (h : HttpOutcome),
      gets (LocalTools.convert_currency a f t env h).2 ≤ 1) ∧
    (∀ (h : HttpOutcome), gets (LocalTools.get_joke h).2 ≤ 1) ∧
    (∀ (env : EnvMap) (h : HttpOutcome), gets (LocalTools.get_random_fact env h).2 ≤ 1) ∧
    (∀ (q : String) (h : HttpOutcome), gets (LocalTools.search_wikipedia q h).2 ≤ 1) ∧
    (∀ (m : String) (rs : RandS),
      gets (DemoTools.get_random_fact (.raise m) rs).2.2 = 1 ∧
      (DemoTools.get_random_fact (.raise m) rs).1 =
        .ok ("🧠 Random Fact: " ++ choiceStr DemoTools.fallback_facts (draw rs).1)) := by
  refine ⟨fun a f t h => Nat.le_refl 1, ?_, ?_, ?_, fun q h => Nat.le_refl 1, ?_,
    fun a f t env h => Nat.le_refl 1, fun h => Nat.le_refl 1, fun env h => Nat.le_refl 1,
    fun q h => Nat.le_refl 1, fun m rs => ⟨rfl, rfl⟩⟩
  · intro loc c env h
    unfold DemoTools.get_weather
    cases env "WEATHERSTACK_API_KEY" with
    | none => exact Nat.zero_le 1
    | some s =>
      by_cases hs : (s == "") = true <;>
        simp [hs, gets, isGet]
  · intro h rs
    unfold DemoTools.get_joke
    cases hb : DemoTools.get_joke_body h <;> exact Nat.le_refl 1
  · intro h rs
    unfold DemoTools.get_random_fact
    cases hb : DemoTools.get_random_fact_body h with
    | ok o => cases o <;> exact Nat.le_refl 1
    | error e => exact Nat.le_refl 1
  · intro loc c env h
    unfold LocalTools.get_weather
    cases env "WEATHERSTACK_API_KEY" with
    | none => exact Nat.zero_le 1
    | some s =>
      by_cases hs : (s == "") = true <;>
        simp [hs, gets, isGet]

/-- Claim C7 (amended): every tool leaves the file system and environment
untouched (neither appears among the effects of any tool) and its external
effects are at most one HTTP GET — except `demo_tools.get_random_fact`, which
additionally prints one diagnostic line to stdout on the exception path. -/
theorem claim_C7 :
    (∀ (a : ℚ) (f t : String) (h : HttpOutcome),
      ((DemoTools.convert_currency a f t h).2.filter isExternal).all isGet = true) ∧
    (∀ (loc : String) (c : Bool) (env : EnvMap) (h : HttpOutcome),
      ((DemoTools.get_weather loc c env h).2.filter isExternal).all isGet = true) ∧
    (∀ (h : HttpOutcome) (rs : RandS),
      ((DemoTools.get_joke h rs).2.2.filter isExternal).all isGet = true) ∧
    (∀ (q : String) (h : HttpOutcome),
      ((DemoTools.search_wikipedia q h).2.filter isExternal).all isGet = true) ∧
    (∀ (e : String) (ev : PyEval),
      ((DemoTools.calculate e ev).2.filter isExternal).all isGet = true) ∧
    (∀ (loc : String) (c : Bool) (env : EnvMap) (h : HttpOutcome),
      ((LocalTools.get_weather loc c env h).2.filter isExternal).all isGet = true) ∧
    (∀ (a : ℚ) (f t : String) (env : EnvMap) (h : HttpOutcome),
      ((LocalTools.convert_currency a f t env h).2.filter isExternal).all isGet = true) ∧
    (∀ (h : HttpOutcome), ((LocalTools.get_joke h).2.filter isExternal).all isGet = true) ∧
    (∀ (env : EnvMap) (h : HttpOutcome),
      ((LocalTools.get_random_fact env h).2.filter isExternal).all isGet = true) ∧
    (∀ (q : String) (h : HttpOutcome),
      ((LocalTools.search_wikipedia q h).2.filter isExternal).all isGet = true) ∧
    (∀ (e : String) (ev : PyEval),
      ((LocalTools.calculate e ev).2.filter isExternal).all isGet = true) ∧
    (∀ (h : HttpOutcome) (rs : RandS),
      (DemoTools.get_random_fact h rs).2.2.filter isExternal = [.httpGet DemoTools.factUrl] ∨
      ∃ s, (DemoTools.get_random_fact h rs).2.2.filter isExternal =
        [.httpGet DemoTools.factUrl, .printLine s]) := by
  refine ⟨fun a f t h => rfl, ?_, ?_, fun q h => rfl, ?_,
    ?_, fun a f t env h => rfl, fun h => rfl, fun env h => rfl,
    fun q h => rfl, ?_, ?_⟩
  · intro loc c env h
    unfold DemoTools.get_weather
    cases env "WEATHERSTACK_API_KEY" with
    | none => rfl
    | some s =>
      by_cases hs : (s == "") = true <;>
        simp [hs, isExternal, isGet]
  · intro h rs
    unfold DemoTools.get_joke
    cases hb : DemoTools.get_joke_body h <;> rfl
  · intro e ev
    unfold DemoTools.calculate
    rcases hA : allowedOk e with _ | _
    · rfl
    · rcases hD : dangerousHit e with _ | _
      · cases hev : ev e <;> rfl
      · rfl
  · intro loc c env h
    unfold LocalTools.get_weather
    cases env "WEATHERSTACK_API_KEY" with
    | none => rfl
    | some s =>
      by_cases hs : (s == "") = true <;>
        simp [hs, isExternal, isGet]
  · intro e ev
    unfold LocalTools.calculate
    rcases hA : allowedOk e with _ | _
    · rfl
    · cases hev : ev e <;> rfl
  · intro h rs
    unfold DemoTools.get_random_fact
    cases hb : DemoTools.get_random_fact_body h with
    | ok o => cases o <;> exact Or.inl rfl
    | error e => exact Or.inr ⟨"Primary fact API failed: " ++ pyExnStr e, rfl⟩

/-- Claim C1 (amended): every tool function in `demo_tools.py` returns a
string on every input — its `try` blocks catch `Exception` — and every tool
function in `local_multiple_tools.py` returns its fallback message rather
than propagating when the underlying HTTP request raises; the local variants
catch only `requests.RequestException`, so they can still propagate on
unexpected response shapes. -/
theorem claim_C1 :
    (∀ (a : ℚ) (f t : String) (h : HttpOutcome),
      okE (DemoTools.convert_currency a f t h).1 = true) ∧
    (∀ (loc : String) (c : Bool) (env : EnvMap) (h : HttpOutcome),
      okE (DemoTools.get_weather loc c env h).1 = true) ∧
    (∀ (h : HttpOutcome) (rs : RandS), okE (DemoTools.get_joke h rs).1 = true) ∧
    (∀ (h : HttpOutcome) (rs : RandS), okE (DemoTools.get_random_fact h rs).1 = true) ∧
    (∀ (q : String) (h : HttpOutcome), okE (DemoTools.search_wikipedia q h).1 = true) ∧
    (∀ (e : String) (ev : PyEval), okE (DemoTools.calculate e ev).1 = true) ∧
    (∀ (loc : String) (c : Bool) (env : EnvMap) (m : String),
      okE (LocalTools.get_weather loc c env (.raise m)).1 = true) ∧
    (∀ (a : ℚ) (f t : String) (env : EnvMap) (m : String),
      (LocalTools.convert_currency a f t env (.raise m)).1 =
        .ok ("Error fetching exchange rate: " ++ m)) ∧
    (∀ (m : String), (LocalTools.get_joke (.raise m)).1 = .ok ("Error fetching joke: " ++ m)) ∧
    (∀ (env : EnvMap) (m : String),
      (LocalTools.get_random_fact env (.raise m)).1 = .ok ("Error fetching random fact: " ++ m)) ∧
    (∀ (q m : String),
      (LocalTools.search_wikipedia q (.raise m)).1 = .ok ("Error searching Wikipedia: " ++ m)) ∧
    (∀ (e : String) (ev : PyEval), okE (LocalTools.calculate e ev).1 = true) := by
  refine ⟨fun a f t h => okE_catchAll _ _, ?_, ?_, ?_, fun q h => okE_catchAll _ _, ?_,
    ?_, fun a f t env m => rfl, fun m => rfl, fun env m => rfl, fun q m => rfl, ?_⟩
  · intro loc c env h
    unfold DemoTools.get_weather
    cases env "WEATHERSTACK_API_KEY" with
    | none => rfl
    | some s =>
      by_cases hs : (s == "") = true <;>
        simp [hs] <;>
        first | rfl | exact okE_catchAll _ _
  · intro h rs
    unfold DemoTools.get_joke
    cases hb : DemoTools.get_joke_body h <;> rfl
  · intro h rs
    unfold DemoTools.get_random_fact
    cases hb : DemoTools.get_random_fact_body h with
    | ok o => cases o <;> rfl
    | error e => rfl
  · intro e ev
    unfold DemoTools.calculate
    rcases hA : allowedOk e with _ | _
    · rfl
    · rcases hD : dangerousHit e with _ | _
      · cases hev : ev e <;> rfl
      · rfl
  · intro loc c env m
    unfold LocalTools.get_weather
    cases env "WEATHERSTACK_API_KEY" with
    | none => rfl
    | some s =>
      by_cases hs : (s == "") = true <;>
        simp [hs] <;>
        rfl
  · intro e ev
    unfold LocalTools.calculate
    rcases hA : allowedOk e with _ | _
    · rfl
    · cases hev : ev e <;> rfl

/-- Counterexample to C1 as stated: when the joke API responds with an empty
JSON object, `local_multiple_tools.get_joke` evaluates `data["error"]`, and
the resulting `KeyError` is not caught by its
`except requests.RequestException` clause — the call propagates an exception
instead of returning a string. -/
theorem claim_C1_counterexample :
    (LocalTools.get_joke (.ok (.obj []))).1 = .error (.key "error") := by rfl

/-- Claim C5 (amended): a tool invocation is a pure function of its
arguments, environment, HTTP response, and the random draw consumed on the
fallback path; the only program state an invocation changes is advancing the
shared random generator, and only on the fallback paths of `get_joke` and
`get_random_fact` (elsewhere the generator is returned unchanged). -/
theorem claim_C5 (http : HttpOutcome) (rs rs' : RandS) (h : draw rs = draw rs') :
    (DemoTools.get_joke http rs).1 = (DemoTools.get_joke http rs').1 ∧
    (DemoTools.get_random_fact http rs).1 = (DemoTools.get_random_fact http rs').1 ∧
    ((DemoTools.get_joke http rs).2.1 = rs ∨ (DemoTools.get_joke http rs).2.1 = (draw rs).2) ∧
    ((DemoTools.get_random_fact http rs).2.1 = rs ∨
      (DemoTools.get_random_fact http rs).2.1 = (draw rs).2) := by
  unfold DemoTools.get_joke DemoTools.get_random_fact
  refine ⟨?_, ?_, ?_, ?_⟩
  · cases hb : DemoTools.get_joke_body http with
    | ok s => rfl
    | error e => rw [h]
  · cases hb : DemoTools.get_random_fact_body http with
    | ok o =>
      cases o with
      | none => rw [h]
      | some s => rfl
    | error e => rw [h]
  · cases hb : DemoTools.get_joke_body http with
    | ok s => exact Or.inl rfl
    | error e => exact Or.inr rfl
  · cases hb : DemoTools.get_random_fact_body http with
    | ok o =>
      cases o with
      | none => exact Or.inr rfl
      | some s => exact Or.inl rfl
    | error e => exact Or.inr rfl

/-- Witness for C5 at a concrete state. -/
theorem claim_C5_witness :
    (draw [] = draw []) ∧
    (DemoTools.get_joke (.raise "x") []).1 = (DemoTools.get_joke (.raise "x") []).1 :=
  ⟨rfl, (claim_C5 (.raise "x") [] [] rfl).1⟩

/-- Counterexample to C5 as stated: two `demo_tools.get_joke` invocations
with identical arguments, environment, and HTTP responses (both failing)
return different strings, because the first invocation advances the shared
random generator state that the second observes. -/
theorem claim_C5_counterexample :
    (DemoTools.get_joke (.raise "boom") [0, 1]).1 ≠
      (DemoTools.get_joke (.raise "boom") ((DemoTools.get_joke (.raise "boom") [0, 1]).2.1)).1 ∧
    (DemoTools.get_joke (.raise "boom") [0, 1]).2.1 ≠ [0, 1] := by
  constructor <;> decide

/-- Counterexample to C7 as stated: on the exception path,
`demo_tools.get_random_fact` prints a diagnostic line to stdout, so its
external effects are not limited to the single HTTP GET. -/
theorem claim_C7_counterexample :
    (DemoTools.get_random_fact (.raise "down") [0]).2.2 =
      [.httpGet DemoTools.factUrl, .printLine "Primary fact API failed: down"] ∧
    ((DemoTools.get_random_fact (.raise "down") [0]).2.2.all isGet) = false := by
  constructor <;> rfl
